import Mathlib

/-!
Shallow embedding of the TEStribute sources (`TEStribute/models.py` and
`TEStribute/utils/service_calls.py`) together with theorems settling the
specification claims about request validation, mode normalization, default
handling, and the multi-endpoint metadata clients.

Conventions used throughout:
- Python floats are embedded as rationals (`ℚ`); every float the code compares
  or produces here is exactly representable.
- Python `None` is `Option.none`; a function that may raise embeds as
  `Except String _`, the error carrying the exception message.
- Python dictionaries (which preserve insertion order) are embedded as
  association lists, where updating an existing key keeps its position and a
  new key is appended at the end.
-/

namespace TEStribute

/-- Enumerator class for different TEStribute run modes (`models.Mode`):
`random = -1`, `cost = 0`, `time = 1`. -/
inductive Mode
| random
| cost
| time
deriving DecidableEq

/-- Numeric value of a `Mode` member (`mode.value`). -/
def Mode.val : Mode → Int
| .random => -1
| .cost => 0
| .time => 1

/-- Python `Mode[name]` lookup by member name; raises `KeyError` (here: `none`)
for any other string. -/
def Mode.fromName (s : String) : Option Mode :=
if s = "random" then some .random
else if s = "cost" then some .cost
else if s = "time" then some .time
else none

/-- Python `Mode(value)` lookup by member value; raises `ValueError` (here:
`none`) for any other integer. -/
def Mode.fromValue (n : Int) : Option Mode :=
if n = -1 then some .random
else if n = 0 then some .cost
else if n = 1 then some .time
else none

/-- Enumerator class for checksum types (`models.ChecksumType`). -/
inductive ChecksumType
| md5
| etag
| sha256
| sha512
deriving DecidableEq

/-- Runtime value that can be stored in `Request.mode` or passed to
`sanitize_mode`. The constructors mirror the Python `isinstance` branches:
a `Mode` enumeration member, a string, a non-boolean integer, a boolean
(which Python's `isinstance(_, int)` also accepts), a float, or a value of
any other runtime type (for which no branch applies). -/
inductive ModeVal
| mode (m : Mode)
| str (s : String)
| int (n : Int)
| bool (b : Bool)
| float (x : ℚ)
| other
deriving DecidableEq

/-- `Request.sanitize_mode` (models.py lines 389-436), as a function of the
value bound to its `mode` parameter. Branches in source order:
`isinstance(mode, Mode)`, `isinstance(mode, str)` via `Mode[mode]`,
`isinstance(mode, int)` via `Mode(mode)` (booleans take this branch, since
`bool` is a subtype of `int` in Python: `True` behaves as `1` and `False`
as `0` in the `Mode(...)` value lookup), `isinstance(mode, float)` with the
`[0, 1]` range check; any other value falls through every branch and the
function implicitly returns `None`. -/
def sanitize_mode : ModeVal → Option ℚ
| .mode m => some (m.val : ℚ)
| .str s =>
  match Mode.fromName s with
  | some m => some (m.val : ℚ)
  | none => none
| .int n =>
  match Mode.fromValue n with
  | some m => some (m.val : ℚ)
  | none => none
| .bool b =>
  match Mode.fromValue (if b then 1 else 0) with
  | some m => some (m.val : ℚ)
  | none => none
| .float x => if x < 0 ∨ x > 1 then none else some x
| .other => none

/-- Decidable equality for `Except`, used to evaluate the embedded fallible
operations on concrete inputs. -/
instance {ε α : Type} [DecidableEq ε] [DecidableEq α] :
    DecidableEq (Except ε α)
| Except.error e, Except.error e' =>
  if h : e = e' then Decidable.isTrue (congrArg Except.error h)
  else Decidable.isFalse (fun hc => h (by injection hc))
| Except.error _, Except.ok _ => Decidable.isFalse (fun hc => Except.noConfusion hc)
| Except.ok _, Except.error _ => Decidable.isFalse (fun hc => Except.noConfusion hc)
| Except.ok a, Except.ok a' =>
  if h : a = a' then Decidable.isTrue (congrArg Except.ok h)
  else Decidable.isFalse (fun hc => h (by injection hc))

/-- A Python value that is either a bare value or the one-element tuple
`(a,)` that a trailing comma on the right-hand side of an assignment
produces. -/
inductive PyTupled (α : Type)
| plain (a : α)
| tuple1 (a : α)
deriving DecidableEq

/-- Checksum record (`models.Checksum`). The field types record what the
constructor actually stores (see `Checksum.init`): possibly a one-element
tuple rather than the bare value. -/
structure Checksum where
  checksum : PyTupled String
  type : PyTupled ChecksumType
deriving DecidableEq

/-- `Checksum.__init__` (models.py lines 109-116): both assignments end in a
trailing comma (`self.checksum = checksum,` and `self.type = type,`), so each
field receives the one-element tuple `(value,)` instead of the bare value.
The `type` parameter defaults to `ChecksumType.md5` at every call site that
omits it. -/
def Checksum.init (checksum : String) (type : ChecksumType) : Checksum :=
  { checksum := PyTupled.tuple1 checksum, type := PyTupled.tuple1 type }

/-- Resources requested by a task (`models.ResourceRequirements`). `preemptible`
defaults to `True` and `zones` to the empty list at call sites that omit them. -/
structure ResourceRequirements where
  cpu_cores : Int
  disk_gb : ℚ
  execution_time_min : Int
  ram_gb : ℚ
  preemptible : Bool
  zones : List String
deriving DecidableEq

/-- Request schema (`models.Request.__init__`): every field defaults to `None`.
The URI/identifier fields hold the sequences of strings the callers pass
(spec §8 exercises them with plain lists), `none` meaning undefined. -/
structure Request where
  resource_requirements : Option ResourceRequirements := none
  tes_uris : Option (List String) := none
  drs_ids : Option (List String) := none
  drs_uris : Option (List String) := none
  mode : Option ModeVal := none
deriving DecidableEq

/-- Mapping of default values passed to `Request.validate` /
`Request.set_defaults`; a field set to `none` means the key is absent from
the mapping (`name in defaults` is false). -/
structure Defaults where
  resource_requirements : Option ResourceRequirements := none
  tes_uris : Option (List String) := none
  drs_ids : Option (List String) := none
  drs_uris : Option (List String) := none
  mode : Option ModeVal := none
deriving DecidableEq

/-- One entry of the local `return_dict` built by `Request.set_defaults`
(models.py lines 364-386): a value that is already set is kept; an unset
value is replaced by the default when the key is in `defaults`, and stays
unset (with a logged warning) otherwise. -/
def set_default_value {α : Type} (value dflt : Option α) : Option α :=
  match value with
  | some v => some v
  | none =>
    match dflt with
    | some d => some d
    | none => none

/-- The local `return_dict` of `Request.set_defaults`, one entry per keyword
argument passed by `Request.validate` (the five request fields). -/
structure DefaultedFields where
  resource_requirements : Option ResourceRequirements
  tes_uris : Option (List String)
  drs_ids : Option (List String)
  drs_uris : Option (List String)
  mode : Option ModeVal
deriving DecidableEq

/-- The `return_dict` that `Request.set_defaults` computes for the five
keyword arguments `Request.validate` passes. -/
def Request.set_defaults_return_dict (r : Request) (defaults : Defaults) :
    DefaultedFields :=
  { resource_requirements :=
      set_default_value r.resource_requirements defaults.resource_requirements
    tes_uris := set_default_value r.tes_uris defaults.tes_uris
    drs_ids := set_default_value r.drs_ids defaults.drs_ids
    drs_uris := set_default_value r.drs_uris defaults.drs_uris
    mode := set_default_value r.mode defaults.mode }

/-- `Request.set_defaults` (models.py lines 344-387): the method builds
`return_dict` but assigns no attribute of `self` and ends without a `return`
statement (so it returns `None`). As a state transformer it therefore leaves
the instance unchanged; the second component is the local dictionary, which
the caller discards. -/
def Request.set_defaults (r : Request) (defaults : Defaults) :
    Request × DefaultedFields :=
  (r, r.set_defaults_return_dict defaults)

/-- Python truthiness of an optional sequence field: `None` and the empty
list are falsy, a non-empty list is truthy. -/
def truthy {α : Type} : Option (List α) → Bool
| none => false
| some l => !l.isEmpty

/-- The argument that the call `self.sanitize_mode()` in `Request.validate`
(models.py line 319) actually passes to `sanitize_mode`: the method is
defined without a `self` parameter (its first parameter is `mode`), so the
bound-method call binds the `Request` instance itself to `mode`. A `Request`
instance is not a `Mode`, `str`, `int`, `bool` or `float`, so it embeds as
the catch-all constructor `ModeVal.other`. -/
def Request.modeArgOfSelf (_ : Request) : ModeVal := ModeVal.other

/-- Message of the first validation error in `Request.validate`. -/
def invalidModeMsg : String := "Parameter \x27mode\x27 is invalid."

/-- Message of the second validation error in `Request.validate` (the typo
`accesing` is the source's). -/
def noDrsServiceMsg : String := "No services for accesing input objects defined."

/-- Message of the third validation error in `Request.validate`. -/
def noTesMsg : String := "No TES instance has been specified."

/-- `Request.validate` (models.py lines 298-341). If a defaults mapping is
given, `set_defaults` is called (it leaves the instance unchanged, see
`Request.set_defaults`); then the run mode is sanitized — through the
instance-binding slip recorded in `Request.modeArgOfSelf` — and checked;
then the two sequence invariants are checked in source order, raising
`ValidationError` (embedded as `Except.error` carrying the message) on the
first violation. On success the method returns `None`; the embedding returns
the final instance state. -/
def Request.validate (r : Request) (defaults : Option Defaults) :
    Except String Request :=
  let r' :=
    match defaults with
    | some d => (r.set_defaults d).1
    | none => r
  let mode := sanitize_mode r'.modeArgOfSelf
  if mode = none then Except.error invalidModeMsg
  else if truthy r'.drs_ids && !truthy r'.drs_uris then
    Except.error noDrsServiceMsg
  else if !truthy r'.tes_uris then Except.error noTesMsg
  else Except.ok r'

/-!
Embedding of `TEStribute/utils/service_calls.py`. Python dictionaries keep
insertion order, so they are embedded as association lists: updating an
existing key keeps its position, a fresh key is appended at the end.
-/

/-- Python `d[k] = f(d.get(k))` on an insertion-ordered dictionary: update the
entry in place when the key exists, append it otherwise. -/
def dictUpdate {α : Type} (k : String) (f : Option α → α) :
    List (String × α) → List (String × α)
| [] => [(k, f none)]
| p :: t => if p.1 = k then (k, f (some p.2)) :: t else p :: dictUpdate k f t

/-- Python `d[k] = v` on an insertion-ordered dictionary. -/
def dictInsert {α : Type} (l : List (String × α)) (k : String) (v : α) :
    List (String × α) :=
  dictUpdate k (fun _ => v) l

/-- Python `d.get(k)` on an insertion-ordered dictionary. -/
def dictGet {α : Type} (l : List (String × α)) (k : String) : Option α :=
  (l.find? (fun p => p.1 = k)).map Prod.snd

/-- Python `k in d` on an insertion-ordered dictionary. -/
def dictHasKey {α : Type} (l : List (String × α)) (k : String) : Bool :=
  l.any (fun p => p.1 = k)

/-- Environment seen by `_fetch_drs_objects_metadata` for one endpoint URI:
either constructing `drs_client.Client(uri)` raises (`TimeoutError`,
`ConnectionError`, `HTTPError`, `HTTPNotFound`, `JSONDecodeError` or
`MissingSchema`, embedded as `Except.error` with the exception text), or it
yields a client whose `getObject(id)._as_dict()` call is embedded as a
function from object identifier to `some` metadata record, `none` standing
for the `HTTPNotFound` / per-object `TimeoutError` cases that the source
skips. -/
def DrsEnv (δ : Type) : Type := String → Except String (String → Option δ)

/-- `_fetch_drs_objects_metadata` (service_calls.py lines 87-153): on any
connection exception a warning is logged and the empty dictionary is
returned — no exception escapes, hence the non-`Except` result type;
otherwise each requested identifier that the endpoint serves is inserted
into `objects_metadata` in request order, and identifiers the endpoint does
not serve (or whose fetch times out) are skipped. -/
def fetch_drs_objects_metadata_one {δ : Type}
    (conn : Except String (String → Option δ)) (ids : List String) :
    List (String × δ) :=
  match conn with
  | Except.error _ => []
  | Except.ok serve =>
    ids.foldl
      (fun acc i =>
        match serve i with
        | some v => dictInsert acc i v
        | none => acc)
      []

/-- Error message raised by the `check_results` block of
`fetch_drs_objects_metadata` for object identifier `id`. -/
def drsUnavailableMsg (id : String) : String :=
  "Object \x27" ++ id ++ "\x27 is not available at any of the specified DRS instances."

/-- Message of the `TypeError` CPython raises when binding the arguments of
the delegation call in `fetch_drs_objects_metadata` (see
`drsDelegationCall`). -/
def typeErrorMsg : String :=
  "_fetch_drs_objects_metadata() got multiple values for argument \x27uri\x27"

/-- The delegation call `_fetch_drs_objects_metadata(uri=drs_uri, *drs_ids,
timeout=timeout)` (service_calls.py lines 59-63) against the signature
`_fetch_drs_objects_metadata(uri, *ids, timeout=3)`. Python places the
elements unpacked from `*drs_ids` as positional arguments, which are bound
before keyword arguments: for non-empty `drs_ids` the first element binds to
the parameter `uri`, which is then supplied again by the keyword `uri=`, and
Python raises `TypeError("got multiple values for argument 'uri'")` before
the function body (and hence any connection attempt) runs. Only for empty
`drs_ids` does the call reach the body, with `uri = drs_uri` and `ids = ()`. -/
def drsDelegationCall {δ : Type} (env : DrsEnv δ) (uri : String)
    (ids : List String) : Except String (List (String × δ)) :=
  match ids with
  | [] => Except.ok (fetch_drs_objects_metadata_one (env uri) [])
  | _ :: _ => Except.error typeErrorMsg

/-- Merge of one endpoint's metadata into `result_dict` (service_calls.py
lines 66-70): for each reported object, `result_dict[drs_id].update({drs_uri:
metadata[drs_id]})`, where `result_dict` is a `defaultdict(dict)` so a fresh
object identifier starts from the empty inner dictionary. The `if metadata:`
guard in the source is behaviorally redundant, since folding an empty
metadata dictionary changes nothing. -/
def drsMergeStep {δ : Type} (uri : String) (metadata : List (String × δ))
    (acc : List (String × List (String × δ))) :
    List (String × List (String × δ)) :=
  metadata.foldl
    (fun a p => dictUpdate p.1 (fun inner => dictInsert (inner.getD []) uri p.2) a)
    acc

/-- Loop body of `fetch_drs_objects_metadata` (service_calls.py lines 56-81),
one iteration per DRS URI. Each iteration performs the delegation call
(`drsDelegationCall`), whose argument binding raises an uncaught `TypeError`
whenever `drs_ids` is non-empty, aborting the whole call; when the call does
return (empty `drs_ids`), its result is merged into `result_dict` under
`result_dict[drs_id][drs_uri]`, and — because the `check_results` block sits
inside this loop in the source — `ResourceUnavailableError` is raised for
the first requested identifier not yet present in `result_dict` when
`check_results` is set. -/
def fetch_drs_objects_metadata_loop {δ : Type} (env : DrsEnv δ)
    (ids : List String) (check_results : Bool) :
    List String → List (String × List (String × δ)) →
    Except String (List (String × List (String × δ)))
| [], acc => Except.ok acc
| uri :: rest, acc =>
  match drsDelegationCall env uri ids with
  | Except.error e => Except.error e
  | Except.ok metadata =>
    let acc' := drsMergeStep uri metadata acc
    if check_results then
      match ids.find? (fun i => !dictHasKey acc' i) with
      | some i => Except.error (drsUnavailableMsg i)
      | none => fetch_drs_objects_metadata_loop env ids check_results rest acc'
    else fetch_drs_objects_metadata_loop env ids check_results rest acc'

/-- `fetch_drs_objects_metadata` (service_calls.py lines 24-84): iterate over
the DRS URIs starting from an empty `result_dict` and return it after the
last iteration (the call sites use `check_results = True` as default). -/
def fetch_drs_objects_metadata {δ : Type} (env : DrsEnv δ)
    (drs_uris drs_ids : List String) (check_results : Bool) :
    Except String (List (String × List (String × δ))) :=
  fetch_drs_objects_metadata_loop env drs_ids check_results drs_uris []

/-- Outcome of one TES endpoint as seen by `_fetch_tes_task_info`: the
`tes_client.Client(uri)` construction raises a connection-type exception
(`TimeoutError`, `ConnectionError`, `JSONDecodeError`, `HTTPNotFound` or
`MissingSchema`), or it yields a client whose `getTaskInfo(...)` call
produces `some` task-info record, `none` standing for a timeout during that
call (and for a literally empty response dictionary, which the caller's
truthiness test treats the same way). -/
inductive TesConn (τ : Type)
| connTimeout
| connError (e : String)
| ok (info : Option τ)

/-- `_fetch_tes_task_info` (service_calls.py lines 209-257): every handled
exception logs a warning and returns the empty dictionary (`none` here), so
no exception escapes — hence the non-`Except` result type. -/
def fetch_tes_task_info_one {τ : Type} : TesConn τ → Option τ
| TesConn.connTimeout => none
| TesConn.connError _ => none
| TesConn.ok info => info

/-- Error message raised by `fetch_tes_task_info` when strict checking finds
an empty result. -/
def noTesTaskInfoMsg : String :=
  "None of the specified TES instances provided any task info."

/-- `fetch_tes_task_info` (service_calls.py lines 156-206): query each TES
URI in order, record non-empty task info keyed by the URI, and only after
the loop raise `ResourceUnavailableError` when `check_results` is set and
the result dictionary is empty. -/
def fetch_tes_task_info {τ : Type} (env : String → TesConn τ)
    (tes_uris : List String) (check_results : Bool) :
    Except String (List (String × τ)) :=
  let result := tes_uris.foldl
    (fun acc uri =>
      match fetch_tes_task_info_one (env uri) with
      | some info => dictInsert acc uri info
      | none => acc)
    []
  if check_results && result.isEmpty then Except.error noTesTaskInfoMsg
  else Except.ok result

/-- Concrete two-endpoint DRS environment for exercising the multi-endpoint
repository client on the spec's merge example: endpoint "A" reports object
"o1" only (with record 1), endpoint "B" reports "o1" (record 2) and "o2"
(record 3), and no other endpoint is reachable. -/
def drsEnvAB : DrsEnv Nat := fun u =>
  if u = "A" then Except.ok (fun i => if i = "o1" then some 1 else none)
  else if u = "B" then
    Except.ok (fun i => if i = "o1" then some 2 else if i = "o2" then some 3 else none)
  else Except.error "refused"

/-!
Supporting lemmas about the ordered-dictionary model.
-/

theorem dictUpdate_of_not_hasKey {α : Type} {l : List (String × α)}
    {k : String} (f : Option α → α) (h : dictHasKey l k = false) :
    dictUpdate k f l = l ++ [(k, f none)] := by
  induction l with
  | nil => rfl
  | cons p t ih =>
    simp only [dictHasKey, List.any_cons, Bool.or_eq_false_iff] at h
    rw [dictUpdate, if_neg (by simpa using h.1), ih (by simpa [dictHasKey] using h.2)]
    rfl

theorem tes_fold_eq {τ : Type} (env : String → TesConn τ) :
    ∀ (uris : List String) (acc : List (String × τ)),
    uris.Nodup → (∀ u ∈ uris, dictHasKey acc u = false) →
    uris.foldl
      (fun acc uri =>
        match fetch_tes_task_info_one (env uri) with
        | some info => dictInsert acc uri info
        | none => acc) acc =
      acc ++ uris.filterMap
        (fun u => (fetch_tes_task_info_one (env u)).map (fun i => (u, i))) := by
  intro uris
  induction uris with
  | nil =>
    intro acc _ _
    simp
  | cons u rest ih =>
    intro acc hnd hdisj
    obtain ⟨hu_rest, hnd_rest⟩ := List.nodup_cons.mp hnd
    rw [List.foldl_cons, List.filterMap_cons]
    rcases hu : fetch_tes_task_info_one (env u) with _ | info
    · exact ih acc hnd_rest (fun u' hu' => hdisj u' (List.mem_cons_of_mem u hu'))
    · have hins : dictInsert acc u info = acc ++ [(u, info)] :=
        dictUpdate_of_not_hasKey _ (hdisj u (List.mem_cons_self u rest))
      have hdisj' : ∀ u' ∈ rest, dictHasKey (acc ++ [(u, info)]) u' = false := by
        intro u' hu'
        have h1 : dictHasKey acc u' = false :=
          hdisj u' (List.mem_cons_of_mem u hu')
        have h2 : ¬ u = u' := fun hc => hu_rest (hc ▸ hu')
        simp [dictHasKey, List.any_append] at h1 ⊢
        exact ⟨h1, fun hc => h2 hc⟩
      show List.foldl
          (fun acc uri =>
            match fetch_tes_task_info_one (env uri) with
            | some info => dictInsert acc uri info
            | none => acc)
          (dictInsert acc u info) rest =
        acc ++ (u, info) :: List.filterMap
          (fun u => (fetch_tes_task_info_one (env u)).map (fun i => (u, i))) rest
      rw [hins, ih (acc ++ [(u, info)]) hnd_rest hdisj', List.append_assoc]
      rfl

/-!
Theorems settling the specification claims.
-/

/-- C1: the claim states that a `Request` with non-empty `tes_uris`, empty
`drs_ids` and a normalizable stored mode passes `Request.validate` without
error, leaving the instance normalized. In the source, `sanitize_mode` is
declared without a `self` parameter, so the call `self.sanitize_mode()`
binds the `Request` instance itself to `mode`; no `isinstance` branch
accepts it, the sanitized mode is therefore always `None`, and `validate`
raises `ValidationError("Parameter 'mode' is invalid.")` for every request —
including the claimed valid ones — and every defaults argument. -/
theorem validate_always_raises_invalid_mode (r : Request) (d : Option Defaults) :
    r.validate d = Except.error invalidModeMsg := by
  cases d <;> rfl

/-- C2: the claim states that after default application each undefined field
with a matching key in the defaults mapping holds the default. The source's
`set_defaults` computes the defaulted values into its local `return_dict`
but neither writes them back onto the instance nor returns them: at a
concrete request with undefined `mode` and a defaults mapping supplying
`mode` and `tes_uris`, the instance comes back unchanged (its `mode` still
undefined) even though the discarded dictionary holds both defaults. -/
theorem set_defaults_computes_but_does_not_apply :
    ((Request.mk none none none none none).set_defaults
        (Defaults.mk none (some ["https://tes-1.example.org/"]) none none
          (some (ModeVal.str "cost")))).1
      = Request.mk none none none none none ∧
    ((Request.mk none none none none none).set_defaults
        (Defaults.mk none (some ["https://tes-1.example.org/"]) none none
          (some (ModeVal.str "cost")))).1.mode = none ∧
    ((Request.mk none none none none none).set_defaults
        (Defaults.mk none (some ["https://tes-1.example.org/"]) none none
          (some (ModeVal.str "cost")))).2.mode = some (ModeVal.str "cost") ∧
    ((Request.mk none none none none none).set_defaults
        (Defaults.mk none (some ["https://tes-1.example.org/"]) none none
          (some (ModeVal.str "cost")))).2.tes_uris
      = some ["https://tes-1.example.org/"] :=
  ⟨rfl, rfl, rfl, rfl⟩

/-- C3: the claim states that a `ResourceUnavailableError` is raised if and
only if some requested object is absent from every endpoint's results, and
only after all endpoints have been processed. In the source neither
direction holds: whenever there is at least one endpoint URI and at least
one requested identifier, the delegation call's argument binding raises an
uncaught `TypeError("got multiple values for argument 'uri'")` on the first
loop iteration — before any endpoint is contacted — so the described
`ResourceUnavailableError` is never raised (first conjunct, for every
environment, non-empty URI list, non-empty identifier list and either
`check_results` value); and with no endpoint URIs at all, a requested
object is absent from every (i.e. no) endpoint yet the call returns the
empty mapping without error, because the `check_results` block sits inside
the never-executed loop (second conjunct). -/
theorem drs_strict_check_never_reached {δ : Type} (env : DrsEnv δ)
    (uri : String) (uris : List String) (id : String) (ids : List String)
    (check_results : Bool) :
    fetch_drs_objects_metadata env (uri :: uris) (id :: ids) check_results
      = Except.error typeErrorMsg ∧
    fetch_drs_objects_metadata env [] (id :: ids) true = Except.ok [] :=
  ⟨rfl, rfl⟩

/-- C4: the claim states that `fetch_drs_objects_metadata` returns a mapping
keyed first by object identifier and then by endpoint URI, merged from what
each endpoint reports — on the claim's own example, endpoint "A" reporting
`{"o1"}` and endpoint "B" reporting `{"o1", "o2"}`. On that example the code
returns no mapping at all: the delegation call raises the uncaught
`TypeError` on the first iteration, with strict checking on or off, so the
merge logic is dead code for every request with a non-empty identifier
list. -/
theorem drs_merge_example_crashes_with_type_error :
    fetch_drs_objects_metadata drsEnvAB ["A", "B"] ["o1", "o2"] true
      = Except.error typeErrorMsg ∧
    fetch_drs_objects_metadata drsEnvAB ["A", "B"] ["o1", "o2"] false
      = Except.error typeErrorMsg ∧
    typeErrorMsg ≠ drsUnavailableMsg "o2" := by
  exact ⟨rfl, rfl, by decide⟩

/-- C5: the claim states that `Request.validate` raises the two sequence
invariant errors with their messages after mode normalization. Because mode
sanitization receives the instance itself (missing `self`) and always fails,
a request violating the `drs_ids`/`drs_uris` invariant — and likewise one
with empty `tes_uris` — still gets the mode error: the invariant checks are
unreachable and the claimed messages are never produced. -/
theorem validate_invariant_checks_unreachable :
    (Request.mk none (some ["https://tes-1.example.org/"]) (some ["obj1"])
        (some []) (some (ModeVal.str "cost"))).validate none
      = Except.error invalidModeMsg ∧
    invalidModeMsg ≠ noDrsServiceMsg ∧
    (Request.mk none (some []) none none (some (ModeVal.str "cost"))).validate none
      = Except.error invalidModeMsg ∧
    invalidModeMsg ≠ noTesMsg := by
  exact ⟨rfl, by decide, rfl, by decide⟩

/-- C6: mode normalization as a function of the mode value: the three
recognized strings and the three recognized integers map to `0.0`, `1.0`,
`-1.0`; a `Mode` member maps to its numeric value as a float; a float inside
`[0, 1]` is returned unchanged; a float outside `[0, 1]`, an unrecognized
string, an unrecognized integer, and a value of any other type all normalize
to the undefined result. -/
theorem sanitize_mode_spec :
    (sanitize_mode (.str "cost") = some 0 ∧
      sanitize_mode (.str "time") = some 1 ∧
      sanitize_mode (.str "random") = some (-1)) ∧
    (sanitize_mode (.int 0) = some 0 ∧
      sanitize_mode (.int 1) = some 1 ∧
      sanitize_mode (.int (-1)) = some (-1)) ∧
    (∀ m : Mode, sanitize_mode (.mode m) = some ((m.val : ℚ))) ∧
    (∀ x : ℚ, 0 ≤ x → x ≤ 1 → sanitize_mode (.float x) = some x) ∧
    (∀ x : ℚ, x < 0 ∨ 1 < x → sanitize_mode (.float x) = none) ∧
    (∀ s : String, s ≠ "cost" → s ≠ "time" → s ≠ "random" →
      sanitize_mode (.str s) = none) ∧
    (∀ n : Int, n ≠ 0 → n ≠ 1 → n ≠ -1 → sanitize_mode (.int n) = none) ∧
    sanitize_mode .other = none := by
  refine ⟨by decide, by decide, fun m => rfl, ?_, ?_, ?_, ?_, rfl⟩
  · intro x h0 h1
    show (if x < 0 ∨ x > 1 then (none : Option ℚ) else some x) = some x
    rw [if_neg]
    rintro (h | h) <;> linarith
  · intro x h
    show (if x < 0 ∨ x > 1 then (none : Option ℚ) else some x) = none
    rw [if_pos h]
  · intro s h1 h2 h3
    simp [sanitize_mode, Mode.fromName, h1, h2, h3]
  · intro n h0 h1 hm1
    simp [sanitize_mode, Mode.fromValue, h0, h1, hm1]

/-- C6 (witness): the quantified clauses of `sanitize_mode_spec` applied at
the spec's concrete inputs `0.42`, `1.5`, `"bogus"` and `7`. -/
theorem sanitize_mode_spec_witness :
    sanitize_mode (.float (21/50)) = some (21/50) ∧
    sanitize_mode (.float (3/2)) = none ∧
    sanitize_mode (.str "bogus") = none ∧
    sanitize_mode (.int 7) = none :=
  ⟨sanitize_mode_spec.2.2.2.1 (21/50) (by norm_num) (by norm_num),
   sanitize_mode_spec.2.2.2.2.1 (3/2) (Or.inr (by norm_num)),
   sanitize_mode_spec.2.2.2.2.2.1 "bogus" (by decide) (by decide) (by decide),
   sanitize_mode_spec.2.2.2.2.2.2.1 7 (by decide) (by decide) (by decide)⟩

/-- C7: `fetch_tes_task_info` over pairwise distinct endpoint URIs returns
exactly one entry per endpoint whose per-endpoint fetch is non-empty, keyed
by that endpoint's URI and in iteration order, and raises the
resource-unavailable error exactly when strict checking is on and every
endpoint produced an empty result — a condition that can only be decided
after all endpoints have been tried. -/
theorem fetch_tes_task_info_spec {τ : Type} [DecidableEq τ]
    (env : String → TesConn τ)
    (uris : List String) (check_results : Bool) (h : uris.Nodup) :
    fetch_tes_task_info env uris check_results =
      if check_results ∧ ∀ u ∈ uris, fetch_tes_task_info_one (env u) = none
      then Except.error noTesTaskInfoMsg
      else Except.ok (uris.filterMap
        (fun u => (fetch_tes_task_info_one (env u)).map (fun i => (u, i)))) := by
  rw [fetch_tes_task_info, tes_fold_eq env uris [] h (fun u _ => rfl)]
  simp only [List.nil_append]
  have hkey :
      (uris.filterMap
        (fun u => (fetch_tes_task_info_one (env u)).map (fun i => (u, i)))).isEmpty
        = true ↔ ∀ u ∈ uris, fetch_tes_task_info_one (env u) = none := by
    rw [List.isEmpty_iff, List.filterMap_eq_nil_iff]
    constructor
    · intro hall u hu
      exact Option.map_eq_none'.mp (hall u hu)
    · intro hall u hu
      rw [hall u hu]
      rfl
  by_cases hcond :
      check_results = true ∧ ∀ u ∈ uris, fetch_tes_task_info_one (env u) = none
  · rw [if_pos hcond,
      if_pos ((Bool.and_eq_true _ _).mpr ⟨hcond.1, hkey.mpr hcond.2⟩)]
  · rw [if_neg hcond, if_neg (fun hc => by
      rcases (Bool.and_eq_true _ _).mp hc with ⟨h1, h2⟩
      exact hcond ⟨h1, hkey.mp h2⟩)]

/-- C7 (witness): `fetch_tes_task_info_spec` applied to a concrete pair of
endpoints where only "tes-b" returns task info, with strict checking on. -/
theorem fetch_tes_task_info_spec_witness :
    fetch_tes_task_info
      (fun u => if u = "tes-b" then TesConn.ok (some 7) else TesConn.connError "refused")
      ["tes-a", "tes-b"] true = Except.ok [("tes-b", 7)] := by
  rw [fetch_tes_task_info_spec
    (fun u => if u = "tes-b" then TesConn.ok (some 7) else TesConn.connError "refused")
    ["tes-a", "tes-b"] true (by decide)]
  decide

/-- C8: a failed connection in a per-endpoint fetch (repository or execution)
does return the empty result without raising — first three conjuncts — and
for the execution client the claimed consequence holds: one unreachable
endpoint does not prevent another endpoint's data from appearing (fourth
conjunct). For the repository client the consequence fails, by a mechanism
upstream of the per-endpoint handlers: with endpoint "drs-1" unreachable and
endpoint "drs-2" serving the requested object "x1", the multi-endpoint call
raises the uncaught `TypeError` from the delegation call's argument binding
on the first iteration, before any connection attempt, so "drs-2"'s data
never appears in any merged result (fifth conjunct). -/
theorem endpoint_unreachable_handling :
    fetch_drs_objects_metadata_one
      (Except.error "connection refused" : Except String (String → Option Nat))
      ["x1"] = [] ∧
    fetch_tes_task_info_one (TesConn.connError "connection refused" : TesConn Nat)
      = none ∧
    fetch_tes_task_info_one (TesConn.connTimeout : TesConn Nat) = none ∧
    fetch_tes_task_info
      (fun u => if u = "tes-2" then TesConn.ok (some 7) else TesConn.connError "refused")
      ["tes-1", "tes-2"] true = Except.ok [("tes-2", 7)] ∧
    fetch_drs_objects_metadata
      (fun u =>
        if u = "drs-2" then Except.ok (fun i => if i = "x1" then some 7 else none)
        else Except.error "refused")
      ["drs-1", "drs-2"] ["x1"] true = Except.error typeErrorMsg := by
  exact ⟨rfl, rfl, rfl, by decide, rfl⟩

/-- C9: the claim states a `Checksum` constructed from a string and a type
holds the plain string and the plain type. The constructor's trailing commas
store the one-element tuples `(s,)` and `(t,)` instead: at the concrete
input `("abc", md5)` both fields are tuples and neither equals the plain
value. -/
theorem checksum_fields_are_one_element_tuples :
    (Checksum.init "abc" ChecksumType.md5).checksum = PyTupled.tuple1 "abc" ∧
    (Checksum.init "abc" ChecksumType.md5).checksum ≠ PyTupled.plain "abc" ∧
    (Checksum.init "abc" ChecksumType.md5).type = PyTupled.tuple1 ChecksumType.md5 ∧
    (Checksum.init "abc" ChecksumType.md5).type ≠ PyTupled.plain ChecksumType.md5 := by
  exact ⟨rfl, by decide, rfl, by decide⟩

/-- C10: booleans pass the integer branch of mode normalization, because
Python's `bool` is a subtype of `int`: `True` normalizes like `1` to `1.0`
(time) and `False` like `0` to `0.0` (cost). -/
theorem sanitize_mode_accepts_booleans :
    sanitize_mode (.bool true) = some 1 ∧ sanitize_mode (.bool false) = some 0 := by
  decide

end TEStribute
